import Mathlib

/-!
Verification of the `workbox-webpack-plugin` `GenerateSW` emission pipeline
(`src/generate-sw.js`).  The stateful `handleEmit(compilation)` pass is
embedded as a pure function from a configuration and a compilation state to
an emission outcome: either an error message (a thrown configuration error)
or the sanitized configuration handed to the external generation service,
together with the compilation state after the pass (the mutations that were
applied before the pass finished or failed).

Helper modules under `src/lib/` (`get-workbox-sw-imports`,
`format-manifest-filename`, `sanitize-config`, `get-asset-hash`,
`stringify-manifest`, `get-manifest-entries-from-compilation`,
`relative-to-output-path`, `convert-string-to-asset`, `warn-about-config`)
are not part of the provided source; they are modelled from the spec, each
marked as such in its doc comment.
-/

set_option autoImplicit false

namespace WorkboxWebpackPlugin

/-- A build asset: textual content plus its size, mirroring the webpack
asset interface (`source()` / `size()`). -/
structure Asset where
  source : String
  size : Nat
deriving DecidableEq, Repr

/-- Modelled from the spec (`lib/convert-string-to-asset`, missing from
`src/`): wraps a string as a webpack asset whose size is its length. -/
def convertStringToAsset (s : String) : Asset :=
  ⟨s, s.length⟩

/-- The build output set `compilation.assets`: a name-to-asset map with
JavaScript-object overwrite semantics, modelled as an association list where
insertion prepends and lookup takes the first match. -/
abbrev AssetMap := List (String × Asset)

/-- Lookup in the build output set (`compilation.assets[k]`). -/
def getAsset (m : AssetMap) (k : String) : Option Asset :=
  (m.find? (fun p => p.1 == k)).map (fun p => p.2)

/-- Assignment into the build output set (`compilation.assets[k] = v`). -/
def setAsset (m : AssetMap) (k : String) (v : Asset) : AssetMap :=
  (k, v) :: m

/-- The slice of the webpack compilation object that `handleEmit` reads or
writes: the asset map and warning list (mutated), the named chunks with
their script-file URL lists (read by the runtime-import resolver), and the
output options `output.publicPath` / `output.path` (read-only). -/
structure Compilation where
  assets : AssetMap
  warnings : List String
  chunks : List (String × List String)
  publicPath : Option String
  outputPath : String

/-- The `importWorkboxFrom` configuration field: `disabled`, `cdn`,
`local` (constructor `localCopy`), or the name of a webpack chunk
(constructor `chunkName`). -/
inductive ImportWorkboxFrom where
  | disabled
  | cdn
  | localCopy
  | chunkName (name : String)
deriving DecidableEq, Repr

/-- The user-supplied `importScripts` value: JavaScript allows either a
single URL string or an array of URL strings. -/
inductive ImportScriptsValue where
  | single (url : String)
  | list (urls : List String)
deriving DecidableEq, Repr

/-- The source's `[].concat(this.config.importScripts)`: JavaScript
`Array.prototype.concat` flattens one level, so a single string becomes a
one-element array and an array is copied element-wise in order. -/
def concatNormalize : ImportScriptsValue → List String
  | .single u => [u]
  | .list us => us

/-- The configuration fields of `this.config` that `handleEmit` consumes. -/
structure Config where
  swDest : String
  importsDirectory : String
  precacheManifestFilename : String
  importScripts : ImportScriptsValue
  importWorkboxFrom : ImportWorkboxFrom
  globPatterns : Option (List String)
  deprecatedOptionUsed : Bool

/-- One precache manifest entry `{url, revision}`. -/
structure ManifestEntry where
  url : String
  revision : Option String
deriving DecidableEq, Repr

/-- Modelled from the spec (`lib/warn-about-config`, missing from `src/`):
a pure helper that returns a non-fatal warning when a deprecated or
unsupported option is set, and nothing otherwise. -/
def warnAboutConfig (cfg : Config) : Option String :=
  if cfg.deprecatedOptionUsed then some "deprecated configuration option used" else none

/-- The first statement of `handleEmit`: push the configuration warning, if
any, onto `compilation.warnings`. -/
def pushConfigWarning (cfg : Config) (c : Compilation) : Compilation :=
  match warnAboutConfig cfg with
  | some w => { c with warnings := c.warnings ++ [w] }
  | none => c

/-- Modelled from the spec: the fixed external CDN URL yielded when
`importWorkboxFrom` is `cdn`. -/
def workboxCDNURL : String :=
  "https://storage.googleapis.com/workbox-cdn/releases/3.6.3/workbox-sw.js"

/-- Modelled from the spec: the URL of the locally bundled copy of the
runtime-support library yielded when `importWorkboxFrom` is `local`. -/
def workboxLocalURL : String :=
  "workbox/workbox-sw.js"

/-- Modelled from the spec (`lib/get-workbox-sw-imports`, missing from
`src/`): the Runtime-Import Resolver.  `disabled` yields no URL list
(`null` in the source, here `none`); `cdn` and `local` yield exactly one
URL; a chunk name yields that chunk's script-file URLs, failing with a
configuration error when the chunk does not exist or produced no script
file. -/
def getWorkboxSWImports (compilation : Compilation) (cfg : Config) :
    Except String (Option (List String)) :=
  match cfg.importWorkboxFrom with
  | .disabled => .ok none
  | .cdn => .ok (some [workboxCDNURL])
  | .localCopy => .ok (some [workboxLocalURL])
  | .chunkName name =>
    match compilation.chunks.find? (fun p => p.1 == name) with
    | none => .error ("importWorkboxFrom was set to " ++ name ++
        ", which is not an existing chunk name.")
    | some pr =>
      if pr.2.isEmpty then
        .error ("The chunk " ++ name ++ " did not produce any usable script files.")
      else
        .ok (some pr.2)

/-- Modelled from the spec (`lib/get-asset-hash`, missing from `src/`): a
deterministic content hash of an asset's source text, rendered as a hex
digest.  The exact algorithm is not load-bearing, only determinism is. -/
def getAssetHash (asset : Asset) : String :=
  String.mk (Nat.toDigits 16
    (asset.source.data.foldl (fun h c => (h * 31 + c.toNat) % 4294967296) 7))

/-- Modelled from the spec (`lib/get-manifest-entries-from-compilation`,
missing from `src/`): derives one precache entry per build asset, with a
content-hash revision.  Configured inclusion/exclusion rules and per-entry
transforms are not modelled; no claim depends on them. -/
def getManifestEntriesFromCompilation (compilation : Compilation) (_cfg : Config) :
    List ManifestEntry :=
  compilation.assets.map (fun p => ⟨p.1, some (getAssetHash p.2)⟩)

/-- Comma-separated join of a list of strings. -/
def joinComma : List String → String
  | [] => ""
  | [x] => x
  | x :: xs => x ++ "," ++ joinComma xs

/-- Modelled from the spec (`lib/stringify-manifest`, missing from `src/`):
deterministic canonical serialization of the entry list (stable field
order, stable encoding). -/
def stringifyManifest (entries : List ManifestEntry) : String :=
  "self.__precacheManifest = [" ++
    joinComma (entries.map (fun e =>
      "\x7burl:" ++ e.url ++ ",revision:" ++ (e.revision.getD "null") ++ "\x7d")) ++
    "];"

/-- The hash placeholder token the manifest filename template must
contain. -/
def manifestHashToken : String := "[manifestHash]"

/-- Whether a token occurs as a contiguous run inside a character list. -/
def listContainsToken (tok : List Char) : List Char → Bool
  | [] => tok.isEmpty
  | c :: cs => tok.isPrefixOf (c :: cs) || listContainsToken tok cs

/-- Whether a filename template contains the hash placeholder
(JavaScript `filename.includes('[manifestHash]')`). -/
def hasManifestHashToken (s : String) : Bool :=
  listContainsToken manifestHashToken.data s.data

/-- Replace the first occurrence of `tok` by `rep` in a character list
(JavaScript `String.prototype.replace` with a string pattern replaces only
the first occurrence). -/
def listReplaceFirst (tok rep : List Char) : List Char → List Char
  | [] => []
  | c :: cs =>
    if tok.isPrefixOf (c :: cs) then rep ++ List.drop tok.length (c :: cs)
    else c :: listReplaceFirst tok rep cs

/-- First-occurrence string replacement (JavaScript `s.replace(tok, rep)`
with a string pattern). -/
def stringReplaceFirst (s tok rep : String) : String :=
  String.mk (listReplaceFirst tok.data rep.data s.data)

/-- Modelled from the spec (`lib/format-manifest-filename`, missing from
`src/`): the Manifest Artifact Namer.  Substitutes the computed digest for
the hash placeholder; a template with no placeholder is a hard
configuration error. -/
def formatManifestFilename (filename : String) (manifestHash : String) :
    Except String String :=
  if hasManifestHashToken filename then
    .ok (stringReplaceFirst filename manifestHashToken manifestHash)
  else
    .error ("Can't use whatever precacheManifestFilename is missing the " ++
      "[manifestHash] placeholder: " ++ filename)

/-- `path.join(a, b)` for a host path separator `sep` (only the joining
behaviour the pipeline relies on: an empty first component is dropped). -/
def pathJoin (sep : Char) (a : String) (b : String) : String :=
  if a = "" then b else a ++ String.singleton sep ++ b

/-- Modelled from the spec (`lib/relative-to-output-path`, missing from
`src/`): makes a path relative to the build's declared output root
(`compilation.options.output.path`), leaving already-relative paths
unchanged. -/
def relativeToOutputPath (sep : Char) (compilation : Compilation) (p : String) : String :=
  if (compilation.outputPath ++ String.singleton sep).data.isPrefixOf p.data then
    String.mk (p.data.drop (compilation.outputPath ++ String.singleton sep).length)
  else
    p

/-- `p.split(path.sep).join('/')`: renders a path with forward-slash
separators regardless of the (single-character) host separator `sep`. -/
def toForwardSlashes (sep : Char) (p : String) : String :=
  String.mk (p.data.map (fun c => if c = sep then '/' else c))

/-- The configuration record the external generation service
(`generateSWString`) accepts for standalone generation. -/
structure SanitizedConfig where
  globPatterns : Option (List String)
  importScripts : List String
  workboxSWImport : Option String
deriving DecidableEq, Repr

/-- Modelled from the spec (`lib/sanitize-config`, missing from `src/`):
`sanitizeConfig.forGenerateSWString` projects the full configuration onto
the field set the external generation service accepts, dropping the
pipeline-only keys `swDest`, `importsDirectory` and
`precacheManifestFilename`.  The `importScripts` and `workboxSWImport`
fields are overwritten by the orchestrator before the service is
invoked. -/
def sanitizeConfigForGenerateSWString (cfg : Config) : SanitizedConfig :=
  { globPatterns := cfg.globPatterns
    importScripts := concatNormalize cfg.importScripts
    workboxSWImport := none }

/-- Outcome of one `handleEmit` pass: the error thrown or the sanitized
configuration passed to the external generation service, plus the
compilation state after the pass (reflecting every mutation applied before
the pass returned or threw). -/
structure EmitOutcome where
  result : Except String SanitizedConfig
  compilation : Compilation

/-- The embedding of `GenerateSW.handleEmit(compilation)` from
`src/generate-sw.js`, parametrised by the host path separator `sep` and by
the external generation service `gen` (`workbox-build.generateSWString`,
an external collaborator returning generated script text plus warnings).
The steps follow the source statement by statement. -/
def handleEmit (sep : Char) (gen : SanitizedConfig → String × List String)
    (cfg : Config) (compilation : Compilation) : EmitOutcome :=
  let compilation := pushConfigWarning cfg compilation
  match getWorkboxSWImports compilation cfg with
  | .error e => ⟨.error e, compilation⟩
  | .ok workboxSWImports =>
    let entries := getManifestEntriesFromCompilation compilation cfg
    let importScriptsArray := concatNormalize cfg.importScripts
    let manifestString := stringifyManifest entries
    let manifestAsset := convertStringToAsset manifestString
    let manifestHash := getAssetHash manifestAsset
    match formatManifestFilename cfg.precacheManifestFilename manifestHash with
    | .error e => ⟨.error e, compilation⟩
    | .ok manifestFilename =>
      let pathToManifestFile := relativeToOutputPath sep compilation
        (pathJoin sep cfg.importsDirectory manifestFilename)
      let compilation := { compilation with
        assets := setAsset compilation.assets pathToManifestFile manifestAsset }
      let importScriptsArray := importScriptsArray ++
        [(compilation.publicPath.getD "") ++ toForwardSlashes sep pathToManifestFile]
      -- workboxSWImports is none if importWorkboxFrom is 'disabled'.
      let swiPair : Option String × List String :=
        match workboxSWImports with
        | none => (none, importScriptsArray)
        | some ws =>
          if ws.length = 1 then
            -- 'cdn', 'local', or a chunk with a single JavaScript asset.
            (ws.head?, importScriptsArray)
          else
            -- Multiple JavaScript assets: import them all first as part of
            -- the main importScripts().
            (none, ws ++ importScriptsArray)
      let sanitizedConfig := sanitizeConfigForGenerateSWString cfg
      let sanitizedConfig := { sanitizedConfig with
        globPatterns := some (sanitizedConfig.globPatterns.getD [])
        importScripts := swiPair.2
        workboxSWImport := swiPair.1 }
      let genResult := gen sanitizedConfig
      let compilation := { compilation with
        warnings := compilation.warnings ++ genResult.2 }
      let relSwDest := relativeToOutputPath sep compilation cfg.swDest
      let compilation := { compilation with
        assets := setAsset compilation.assets relSwDest (convertStringToAsset genResult.1) }
      ⟨.ok sanitizedConfig, compilation⟩

/-! ### Derived values of one emission pass

Named forms of the intermediate values `handleEmit` computes, used to state
the claims. -/

/-- The manifest asset of a pass: the serialized entry list wrapped as an
asset. -/
def manifestAssetOf (cfg : Config) (c : Compilation) : Asset :=
  convertStringToAsset (stringifyManifest (getManifestEntriesFromCompilation c cfg))

/-- The content hash of the manifest asset. -/
def manifestHashOf (cfg : Config) (c : Compilation) : String :=
  getAssetHash (manifestAssetOf cfg c)

/-- The manifest filename with the hash substituted into the template. -/
def formattedManifestFilename (cfg : Config) (c : Compilation) : String :=
  stringReplaceFirst cfg.precacheManifestFilename manifestHashToken (manifestHashOf cfg c)

/-- The manifest artifact's path: the formatted filename joined with
`importsDirectory` and made relative to the build's output root. -/
def manifestPathOf (sep : Char) (cfg : Config) (c : Compilation) : String :=
  relativeToOutputPath sep c (pathJoin sep cfg.importsDirectory (formattedManifestFilename cfg c))

/-- The manifest URL appended to the importScripts list: the public-path
prefix (empty when absent) plus the forward-slash rendering of the manifest
path. -/
def manifestURLOf (sep : Char) (cfg : Config) (c : Compilation) : String :=
  (c.publicPath.getD "") ++ toForwardSlashes sep (manifestPathOf sep cfg c)

/-- The generated script's destination path relative to the output root. -/
def swDestPathOf (sep : Char) (cfg : Config) (c : Compilation) : String :=
  relativeToOutputPath sep c cfg.swDest

/-- The URLs the resolver outcome contributes to the front of the
importScripts list: all of them in the ambiguous (more-than-one) case,
none otherwise. -/
def ambiguousURLs : Option (List String) → List String
  | some ws => if ws.length = 1 then [] else ws
  | none => []

/-- The separate `workboxSWImport` slot the resolver outcome produces: the
single URL in the one-URL case, nothing otherwise. -/
def workboxSWImportOf : Option (List String) → Option String
  | some ws => if ws.length = 1 then ws.head? else none
  | none => none

/-- The sanitized configuration a successful pass hands to the external
generation service, in terms of the resolver outcome `o`. -/
def sanitizedOf (sep : Char) (cfg : Config) (c : Compilation)
    (o : Option (List String)) : SanitizedConfig :=
  { globPatterns := some (cfg.globPatterns.getD [])
    importScripts := ambiguousURLs o ++ concatNormalize cfg.importScripts ++
      [manifestURLOf sep cfg c]
    workboxSWImport := workboxSWImportOf o }

/-! ### Helper lemmas -/

@[simp] lemma pushConfigWarning_assets (cfg : Config) (c : Compilation) :
    (pushConfigWarning cfg c).assets = c.assets := by
  cases h : warnAboutConfig cfg <;> simp [pushConfigWarning, h]

@[simp] lemma pushConfigWarning_chunks (cfg : Config) (c : Compilation) :
    (pushConfigWarning cfg c).chunks = c.chunks := by
  cases h : warnAboutConfig cfg <;> simp [pushConfigWarning, h]

@[simp] lemma pushConfigWarning_publicPath (cfg : Config) (c : Compilation) :
    (pushConfigWarning cfg c).publicPath = c.publicPath := by
  cases h : warnAboutConfig cfg <;> simp [pushConfigWarning, h]

@[simp] lemma pushConfigWarning_outputPath (cfg : Config) (c : Compilation) :
    (pushConfigWarning cfg c).outputPath = c.outputPath := by
  cases h : warnAboutConfig cfg <;> simp [pushConfigWarning, h]

lemma getWorkboxSWImports_pushConfigWarning (cfg cfg' : Config) (c : Compilation) :
    getWorkboxSWImports (pushConfigWarning cfg' c) cfg = getWorkboxSWImports c cfg := by
  cases cfg.importWorkboxFrom <;>
    simp [getWorkboxSWImports, pushConfigWarning_chunks]

lemma getManifestEntriesFromCompilation_pushConfigWarning (cfg cfg' : Config)
    (c : Compilation) :
    getManifestEntriesFromCompilation (pushConfigWarning cfg' c) cfg =
      getManifestEntriesFromCompilation c cfg := by
  simp [getManifestEntriesFromCompilation]

lemma relativeToOutputPath_pushConfigWarning (sep : Char) (cfg : Config)
    (c : Compilation) (p : String) :
    relativeToOutputPath sep (pushConfigWarning cfg c) p = relativeToOutputPath sep c p := by
  simp [relativeToOutputPath]

@[simp] lemma getAsset_setAsset_same (m : AssetMap) (k : String) (v : Asset) :
    getAsset (setAsset m k v) k = some v := by
  simp [getAsset, setAsset, List.find?]

lemma getAsset_setAsset_ne (m : AssetMap) (k k' : String) (v : Asset)
    (h : k' ≠ k) : getAsset (setAsset m k v) k' = getAsset m k' := by
  have hk : (k == k') = false := by
    simp [beq_iff_eq]
    exact fun he => h he.symm
  simp [getAsset, setAsset, List.find?, hk]

/-- Master characterization of a successful pass: when the resolver
succeeds and the filename template has the hash placeholder, `handleEmit`
returns the sanitized configuration `sanitizedOf` and the compilation with
the manifest and script assets written and the service warnings
appended. -/
lemma handleEmit_eq_ok (sep : Char) (gen : SanitizedConfig → String × List String)
    (cfg : Config) (comp : Compilation) (o : Option (List String))
    (hres : getWorkboxSWImports comp cfg = .ok o)
    (htok : hasManifestHashToken cfg.precacheManifestFilename = true) :
    handleEmit sep gen cfg comp =
      ⟨.ok (sanitizedOf sep cfg comp o),
       { assets := setAsset
           (setAsset comp.assets (manifestPathOf sep cfg comp) (manifestAssetOf cfg comp))
           (swDestPathOf sep cfg comp)
           (convertStringToAsset (gen (sanitizedOf sep cfg comp o)).1)
         warnings := (pushConfigWarning cfg comp).warnings ++
           (gen (sanitizedOf sep cfg comp o)).2
         chunks := comp.chunks
         publicPath := comp.publicPath
         outputPath := comp.outputPath }⟩ := by
  have hres' : getWorkboxSWImports (pushConfigWarning cfg comp) cfg = Except.ok o := by
    rw [getWorkboxSWImports_pushConfigWarning, hres]
  have hfmt' : formatManifestFilename cfg.precacheManifestFilename
      (getAssetHash (convertStringToAsset (stringifyManifest
        (getManifestEntriesFromCompilation comp cfg)))) =
      Except.ok (formattedManifestFilename cfg comp) := by
    simp [formatManifestFilename, htok, formattedManifestFilename, manifestHashOf,
      manifestAssetOf]
  cases o with
  | none =>
    simp [handleEmit, hres', hfmt', sanitizedOf, ambiguousURLs, workboxSWImportOf,
      sanitizeConfigForGenerateSWString, manifestPathOf, manifestURLOf, swDestPathOf,
      manifestAssetOf, relativeToOutputPath_pushConfigWarning,
      getManifestEntriesFromCompilation_pushConfigWarning, relativeToOutputPath]
  | some ws =>
    by_cases hws : ws.length = 1 <;>
      simp [handleEmit, hres', hfmt', hws, sanitizedOf, ambiguousURLs, workboxSWImportOf,
        sanitizeConfigForGenerateSWString, manifestPathOf, manifestURLOf, swDestPathOf,
        manifestAssetOf, relativeToOutputPath_pushConfigWarning,
        getManifestEntriesFromCompilation_pushConfigWarning, relativeToOutputPath]

/-- When the runtime-import resolver throws, the pass rethrows its error
and the compilation keeps only the configuration warning pushed at the
start. -/
lemma handleEmit_eq_error_resolver (sep : Char)
    (gen : SanitizedConfig → String × List String) (cfg : Config)
    (comp : Compilation) (e : String)
    (hres : getWorkboxSWImports comp cfg = .error e) :
    handleEmit sep gen cfg comp = ⟨.error e, pushConfigWarning cfg comp⟩ := by
  have hres' : getWorkboxSWImports (pushConfigWarning cfg comp) cfg = Except.error e := by
    rw [getWorkboxSWImports_pushConfigWarning, hres]
  simp [handleEmit, hres']

/-- When the filename template has no hash placeholder, the pass fails at
`formatManifestFilename` and the compilation keeps only the configuration
warning pushed at the start. -/
lemma handleEmit_eq_error_noToken (sep : Char)
    (gen : SanitizedConfig → String × List String) (cfg : Config)
    (comp : Compilation) (o : Option (List String))
    (hres : getWorkboxSWImports comp cfg = .ok o)
    (htok : hasManifestHashToken cfg.precacheManifestFilename = false) :
    ∃ e, handleEmit sep gen cfg comp = ⟨.error e, pushConfigWarning cfg comp⟩ := by
  have hres' : getWorkboxSWImports (pushConfigWarning cfg comp) cfg = Except.ok o := by
    rw [getWorkboxSWImports_pushConfigWarning, hres]
  refine ⟨"Can't use whatever precacheManifestFilename is missing the " ++
    "[manifestHash] placeholder: " ++ cfg.precacheManifestFilename, ?_⟩
  simp [handleEmit, hres', formatManifestFilename, htok]

/-! ### The claims -/

/-- C1: for every emission run in which the resolver returned more than one
URL (an ambiguous named bundle), the importScripts list passed to the
external generation service is exactly the bundle script URLs in resolver
order, followed by the user-declared importScripts in declared order,
followed by the manifest URL as the last element, and no separate
`workboxSWImport` is set. -/
theorem handleEmit_ambiguous_importScripts_order (sep : Char)
    (gen : SanitizedConfig → String × List String) (cfg : Config)
    (comp : Compilation) (ws : List String)
    (hres : getWorkboxSWImports comp cfg = .ok (some ws))
    (hlen : 2 ≤ ws.length)
    (htok : hasManifestHashToken cfg.precacheManifestFilename = true) :
    ∃ s, (handleEmit sep gen cfg comp).result = .ok s ∧
      s.importScripts = ws ++ concatNormalize cfg.importScripts ++
        [manifestURLOf sep cfg comp] ∧
      s.workboxSWImport = none := by
  have hne : ¬ ws.length = 1 := by omega
  rw [handleEmit_eq_ok sep gen cfg comp (some ws) hres htok]
  exact ⟨_, rfl, by simp [sanitizedOf, ambiguousURLs, hne],
    by simp [sanitizedOf, workboxSWImportOf, hne]⟩

/-- C1 witness: a named bundle with the two script files `a.js`, `b.js`. -/
def wGen : SanitizedConfig → String × List String :=
  fun s => ("importScripts(" ++ joinComma s.importScripts ++ ")", [])

/-- Witness compilation state: one finished asset, three named chunks, a
public path and an output root. -/
def wComp : Compilation :=
  { assets := [("app.js", convertStringToAsset "body")]
    warnings := []
    chunks := [("wbchunk", ["a.js", "b.js"]), ("onechunk", ["one.js"]), ("emptychunk", [])]
    publicPath := some "https://example.com/"
    outputPath := "dist" }

/-- Witness base configuration. -/
def wConfigBase : Config :=
  { swDest := "service-worker.js"
    importsDirectory := "wb-assets"
    precacheManifestFilename := "precache-manifest.[manifestHash].js"
    importScripts := .list ["extra.js"]
    importWorkboxFrom := .cdn
    globPatterns := none
    deprecatedOptionUsed := false }

/-- Witness configuration importing from the two-file chunk. -/
def wConfigChunk : Config := { wConfigBase with importWorkboxFrom := .chunkName "wbchunk" }

theorem handleEmit_ambiguous_importScripts_order_witness :
    ∃ s, (handleEmit '/' wGen wConfigChunk wComp).result = .ok s ∧
      s.importScripts = ["a.js", "b.js"] ++ concatNormalize wConfigChunk.importScripts ++
        [manifestURLOf '/' wConfigChunk wComp] ∧
      s.workboxSWImport = none :=
  handleEmit_ambiguous_importScripts_order '/' wGen wConfigChunk wComp
    ["a.js", "b.js"] rfl (by decide) (by decide)

/-- C2: whenever the resolver yields exactly one URL, emission sets
`workboxSWImport` to that URL and prepends nothing to the importScripts
list, which stays the user-declared scripts followed by the manifest
URL. -/
theorem handleEmit_single_workboxSWImport (sep : Char)
    (gen : SanitizedConfig → String × List String) (cfg : Config)
    (comp : Compilation) (u : String)
    (hres : getWorkboxSWImports comp cfg = .ok (some [u]))
    (htok : hasManifestHashToken cfg.precacheManifestFilename = true) :
    ∃ s, (handleEmit sep gen cfg comp).result = .ok s ∧
      s.workboxSWImport = some u ∧
      s.importScripts = concatNormalize cfg.importScripts ++
        [manifestURLOf sep cfg comp] := by
  rw [handleEmit_eq_ok sep gen cfg comp (some [u]) hres htok]
  exact ⟨_, rfl, by simp [sanitizedOf, workboxSWImportOf],
    by simp [sanitizedOf, ambiguousURLs]⟩

theorem handleEmit_single_workboxSWImport_witness :
    ∃ s, (handleEmit '/' wGen wConfigBase wComp).result = .ok s ∧
      s.workboxSWImport = some workboxCDNURL ∧
      s.importScripts = concatNormalize wConfigBase.importScripts ++
        [manifestURLOf '/' wConfigBase wComp] :=
  handleEmit_single_workboxSWImport '/' wGen wConfigBase wComp workboxCDNURL rfl (by decide)

/-- C3: when `importWorkboxFrom` is `disabled`, no `workboxSWImport` is set
and no bundle URLs are prepended: the importScripts list is the
user-declared scripts followed by the manifest URL. -/
theorem handleEmit_disabled_no_workboxSWImport (sep : Char)
    (gen : SanitizedConfig → String × List String) (cfg : Config)
    (comp : Compilation)
    (hdis : cfg.importWorkboxFrom = .disabled)
    (htok : hasManifestHashToken cfg.precacheManifestFilename = true) :
    ∃ s, (handleEmit sep gen cfg comp).result = .ok s ∧
      s.workboxSWImport = none ∧
      s.importScripts = concatNormalize cfg.importScripts ++
        [manifestURLOf sep cfg comp] := by
  have hres : getWorkboxSWImports comp cfg = .ok none := by
    simp [getWorkboxSWImports, hdis]
  rw [handleEmit_eq_ok sep gen cfg comp none hres htok]
  exact ⟨_, rfl, by simp [sanitizedOf, workboxSWImportOf],
    by simp [sanitizedOf, ambiguousURLs]⟩

/-- Witness configuration with the runtime import disabled. -/
def wConfigDisabled : Config := { wConfigBase with importWorkboxFrom := .disabled }

theorem handleEmit_disabled_no_workboxSWImport_witness :
    ∃ s, (handleEmit '/' wGen wConfigDisabled wComp).result = .ok s ∧
      s.workboxSWImport = none ∧
      s.importScripts = concatNormalize wConfigDisabled.importScripts ++
        [manifestURLOf '/' wConfigDisabled wComp] :=
  handleEmit_disabled_no_workboxSWImport '/' wGen wConfigDisabled wComp rfl (by decide)

/-- C4: with a filename template that has no hash placeholder, the pass
aborts with a configuration error and no entry has been added to the build
output set. -/
theorem handleEmit_noPlaceholder_aborts_before_assets (sep : Char)
    (gen : SanitizedConfig → String × List String) (cfg : Config)
    (comp : Compilation)
    (htok : hasManifestHashToken cfg.precacheManifestFilename = false) :
    (∃ e, (handleEmit sep gen cfg comp).result = .error e) ∧
      (handleEmit sep gen cfg comp).compilation.assets = comp.assets := by
  cases hr : getWorkboxSWImports comp cfg with
  | error e =>
    rw [handleEmit_eq_error_resolver sep gen cfg comp e hr]
    exact ⟨⟨e, rfl⟩, by simp⟩
  | ok o =>
    obtain ⟨e, he⟩ := handleEmit_eq_error_noToken sep gen cfg comp o hr htok
    rw [he]
    exact ⟨⟨e, rfl⟩, by simp⟩

/-- Witness configuration whose manifest filename template lacks the hash
placeholder. -/
def wConfigNoHash : Config := { wConfigBase with precacheManifestFilename := "manifest.js" }

theorem handleEmit_noPlaceholder_aborts_before_assets_witness :
    (∃ e, (handleEmit '/' wGen wConfigNoHash wComp).result = .error e) ∧
      (handleEmit '/' wGen wConfigNoHash wComp).compilation.assets = wComp.assets :=
  handleEmit_noPlaceholder_aborts_before_assets '/' wGen wConfigNoHash wComp (by decide)

/-- C5: a named bundle that produced zero script files makes the pass fail
with a fatal configuration error; it does not silently proceed, and no
entry is added to the build output set. -/
theorem handleEmit_emptyChunk_fatal (sep : Char)
    (gen : SanitizedConfig → String × List String) (cfg : Config)
    (comp : Compilation) (n : String)
    (hiwf : cfg.importWorkboxFrom = .chunkName n)
    (hfind : comp.chunks.find? (fun p => p.1 == n) = some (n, [])) :
    (∃ e, (handleEmit sep gen cfg comp).result = .error e) ∧
      (handleEmit sep gen cfg comp).compilation.assets = comp.assets := by
  have hres : getWorkboxSWImports comp cfg =
      .error ("The chunk " ++ n ++ " did not produce any usable script files.") := by
    simp [getWorkboxSWImports, hiwf, hfind]
  rw [handleEmit_eq_error_resolver sep gen cfg comp _ hres]
  exact ⟨⟨_, rfl⟩, by simp⟩

/-- Witness configuration importing from the zero-file chunk. -/
def wConfigEmptyChunk : Config :=
  { wConfigBase with importWorkboxFrom := .chunkName "emptychunk" }

theorem handleEmit_emptyChunk_fatal_witness :
    (∃ e, (handleEmit '/' wGen wConfigEmptyChunk wComp).result = .error e) ∧
      (handleEmit '/' wGen wConfigEmptyChunk wComp).compilation.assets = wComp.assets :=
  handleEmit_emptyChunk_fatal '/' wGen wConfigEmptyChunk wComp "emptychunk" rfl rfl

/-- Inversion: a pass that returned a sanitized configuration must have had
a successful resolver run and a template with the hash placeholder, and the
configuration is `sanitizedOf` the resolver outcome. -/
lemma handleEmit_ok_inv (sep : Char) (gen : SanitizedConfig → String × List String)
    (cfg : Config) (comp : Compilation) (s : SanitizedConfig)
    (hok : (handleEmit sep gen cfg comp).result = .ok s) :
    ∃ o, getWorkboxSWImports comp cfg = .ok o ∧
      hasManifestHashToken cfg.precacheManifestFilename = true ∧
      s = sanitizedOf sep cfg comp o := by
  cases hr : getWorkboxSWImports comp cfg with
  | error e =>
    rw [handleEmit_eq_error_resolver sep gen cfg comp e hr] at hok
    exact absurd hok (by simp)
  | ok o =>
    cases htok : hasManifestHashToken cfg.precacheManifestFilename with
    | false =>
      obtain ⟨e, he⟩ := handleEmit_eq_error_noToken sep gen cfg comp o hr htok
      rw [he] at hok
      exact absurd hok (by simp)
    | true =>
      rw [handleEmit_eq_ok sep gen cfg comp o hr htok] at hok
      exact ⟨o, rfl, rfl, (Except.ok.inj hok).symm⟩

lemma getLast?_append_singleton (l₁ l₂ : List String) (a : String) :
    (l₁ ++ l₂ ++ [a]).getLast? = some a :=
  List.getLast?_concat _

lemma string_empty_append (x : String) : "" ++ x = x := by
  cases x
  rfl

/-- C6: the sanitized configuration passed to the external generation
service always has `globPatterns` set: the empty list when the user omitted
it, the user's value unchanged when explicitly supplied. -/
theorem handleEmit_globPatterns_defaulted (sep : Char)
    (gen : SanitizedConfig → String × List String) (cfg : Config)
    (comp : Compilation) (s : SanitizedConfig)
    (hok : (handleEmit sep gen cfg comp).result = .ok s) :
    s.globPatterns = some (cfg.globPatterns.getD []) ∧
      (cfg.globPatterns = none → s.globPatterns = some []) ∧
      (∀ g, cfg.globPatterns = some g → s.globPatterns = some g) := by
  obtain ⟨o, -, -, hs⟩ := handleEmit_ok_inv sep gen cfg comp s hok
  subst hs
  refine ⟨rfl, fun h => by simp [sanitizedOf, h], fun g h => by simp [sanitizedOf, h]⟩

/-- Witness configuration with an explicitly supplied `globPatterns`. -/
def wConfigGlob : Config := { wConfigBase with globPatterns := some ["**/*.html"] }

theorem handleEmit_globPatterns_defaulted_witness :
    (handleEmit '/' wGen wConfigGlob wComp).result =
        .ok (sanitizedOf '/' wConfigGlob wComp (some [workboxCDNURL])) ∧
      ((sanitizedOf '/' wConfigGlob wComp (some [workboxCDNURL])).globPatterns =
          some (wConfigGlob.globPatterns.getD []) ∧
        (wConfigGlob.globPatterns = none →
          (sanitizedOf '/' wConfigGlob wComp (some [workboxCDNURL])).globPatterns = some []) ∧
        (∀ g, wConfigGlob.globPatterns = some g →
          (sanitizedOf '/' wConfigGlob wComp (some [workboxCDNURL])).globPatterns = some g)) :=
  have hok : (handleEmit '/' wGen wConfigGlob wComp).result =
      .ok (sanitizedOf '/' wConfigGlob wComp (some [workboxCDNURL])) := by
    rw [handleEmit_eq_ok '/' wGen wConfigGlob wComp (some [workboxCDNURL]) rfl (by decide)]
  ⟨hok, handleEmit_globPatterns_defaulted '/' wGen wConfigGlob wComp _ hok⟩

/-- C7: the manifest URL appended last to the importScripts list is the
formatted manifest filename joined with `importsDirectory`, made relative
to the output root, rendered with forward slashes, and prefixed with the
public path; the manifest asset is registered in the build output set under
that relative path. -/
theorem handleEmit_manifestURL_construction (sep : Char)
    (gen : SanitizedConfig → String × List String) (cfg : Config)
    (comp : Compilation) (o : Option (List String))
    (hres : getWorkboxSWImports comp cfg = .ok o)
    (htok : hasManifestHashToken cfg.precacheManifestFilename = true)
    (hne : manifestPathOf sep cfg comp ≠ swDestPathOf sep cfg comp) :
    ∃ s, (handleEmit sep gen cfg comp).result = .ok s ∧
      s.importScripts.getLast? = some ((comp.publicPath.getD "") ++
        toForwardSlashes sep (relativeToOutputPath sep comp
          (pathJoin sep cfg.importsDirectory (formattedManifestFilename cfg comp)))) ∧
      getAsset (handleEmit sep gen cfg comp).compilation.assets
          (relativeToOutputPath sep comp
            (pathJoin sep cfg.importsDirectory (formattedManifestFilename cfg comp))) =
        some (manifestAssetOf cfg comp) := by
  rw [handleEmit_eq_ok sep gen cfg comp o hres htok]
  refine ⟨_, rfl, ?_, ?_⟩
  · simp only [sanitizedOf, manifestURLOf, manifestPathOf]
    exact getLast?_append_singleton _ _ _
  · show getAsset (setAsset _ (swDestPathOf sep cfg comp) _) (manifestPathOf sep cfg comp) = _
    rw [getAsset_setAsset_ne _ _ _ _ hne, getAsset_setAsset_same]

theorem handleEmit_manifestURL_construction_witness :
    ∃ s, (handleEmit '/' wGen wConfigBase wComp).result = .ok s ∧
      s.importScripts.getLast? = some ((wComp.publicPath.getD "") ++
        toForwardSlashes '/' (relativeToOutputPath '/' wComp
          (pathJoin '/' wConfigBase.importsDirectory (formattedManifestFilename wConfigBase wComp)))) ∧
      getAsset (handleEmit '/' wGen wConfigBase wComp).compilation.assets
          (relativeToOutputPath '/' wComp
            (pathJoin '/' wConfigBase.importsDirectory (formattedManifestFilename wConfigBase wComp))) =
        some (manifestAssetOf wConfigBase wComp) :=
  handleEmit_manifestURL_construction '/' wGen wConfigBase wComp
    (some [workboxCDNURL]) rfl (by decide) (by decide)

/-- The spec's words for the normalized `importScripts` value: the
user-declared URLs as an ordered list — a single URL becomes a one-element
list, a declared list is kept in declared order with no elements added. -/
def declaredImportScripts : ImportScriptsValue → List String
  | .single u => [u]
  | .list us => us

/-- C8: the user's `importScripts` value, single URL or list, is normalized
to the declared-order URL list (the source's `[].concat`), and in the
configuration passed to the service those URLs appear contiguously, in
order, right before the manifest URL, with nothing inserted among them. -/
theorem handleEmit_importScripts_normalized (sep : Char)
    (gen : SanitizedConfig → String × List String) (cfg : Config)
    (comp : Compilation) (s : SanitizedConfig)
    (hok : (handleEmit sep gen cfg comp).result = .ok s) :
    concatNormalize cfg.importScripts = declaredImportScripts cfg.importScripts ∧
      ∃ ambiguous manifestURL,
        s.importScripts = ambiguous ++ declaredImportScripts cfg.importScripts ++
          [manifestURL] := by
  obtain ⟨o, -, -, hs⟩ := handleEmit_ok_inv sep gen cfg comp s hok
  subst hs
  refine ⟨?_, ambiguousURLs o, manifestURLOf sep cfg comp, ?_⟩ <;>
    cases h : cfg.importScripts <;>
      simp [sanitizedOf, concatNormalize, declaredImportScripts, h]

/-- Witness configuration declaring a single importScripts URL. -/
def wConfigSingle : Config := { wConfigBase with importScripts := .single "lone.js" }

theorem handleEmit_importScripts_normalized_witness :
    (handleEmit '/' wGen wConfigSingle wComp).result =
        .ok (sanitizedOf '/' wConfigSingle wComp (some [workboxCDNURL])) ∧
      (concatNormalize wConfigSingle.importScripts =
          declaredImportScripts wConfigSingle.importScripts ∧
        ∃ ambiguous manifestURL,
          (sanitizedOf '/' wConfigSingle wComp (some [workboxCDNURL])).importScripts =
            ambiguous ++ declaredImportScripts wConfigSingle.importScripts ++
              [manifestURL]) :=
  have hok : (handleEmit '/' wGen wConfigSingle wComp).result =
      .ok (sanitizedOf '/' wConfigSingle wComp (some [workboxCDNURL])) := by
    rw [handleEmit_eq_ok '/' wGen wConfigSingle wComp (some [workboxCDNURL]) rfl (by decide)]
  ⟨hok, handleEmit_importScripts_normalized '/' wGen wConfigSingle wComp _ hok⟩

/-- C9: a successful pass writes exactly the manifest asset at its computed
path and the generated script at the destination path; every other key of
the build output set is unchanged, and no existing entry is removed. -/
theorem handleEmit_assets_frame (sep : Char)
    (gen : SanitizedConfig → String × List String) (cfg : Config)
    (comp : Compilation) (o : Option (List String))
    (hres : getWorkboxSWImports comp cfg = .ok o)
    (htok : hasManifestHashToken cfg.precacheManifestFilename = true)
    (hne : manifestPathOf sep cfg comp ≠ swDestPathOf sep cfg comp) :
    ∃ s, (handleEmit sep gen cfg comp).result = .ok s ∧
      getAsset (handleEmit sep gen cfg comp).compilation.assets
          (manifestPathOf sep cfg comp) = some (manifestAssetOf cfg comp) ∧
      getAsset (handleEmit sep gen cfg comp).compilation.assets
          (swDestPathOf sep cfg comp) = some (convertStringToAsset (gen s).1) ∧
      (∀ k, k ≠ manifestPathOf sep cfg comp → k ≠ swDestPathOf sep cfg comp →
        getAsset (handleEmit sep gen cfg comp).compilation.assets k =
          getAsset comp.assets k) ∧
      (∀ k, (getAsset comp.assets k).isSome →
        (getAsset (handleEmit sep gen cfg comp).compilation.assets k).isSome) := by
  rw [handleEmit_eq_ok sep gen cfg comp o hres htok]
  refine ⟨_, rfl, ?_, ?_, ?_, ?_⟩
  · rw [getAsset_setAsset_ne _ _ _ _ hne, getAsset_setAsset_same]
  · exact getAsset_setAsset_same _ _ _
  · intro k hk1 hk2
    rw [getAsset_setAsset_ne _ _ _ _ hk2, getAsset_setAsset_ne _ _ _ _ hk1]
  · intro k hk
    by_cases h2 : k = swDestPathOf sep cfg comp
    · subst h2
      simp
    · rw [getAsset_setAsset_ne _ _ _ _ h2]
      by_cases h1 : k = manifestPathOf sep cfg comp
      · subst h1
        simp
      · rw [getAsset_setAsset_ne _ _ _ _ h1]
        exact hk

theorem handleEmit_assets_frame_witness :
    ∃ s, (handleEmit '/' wGen wConfigDisabled wComp).result = .ok s ∧
      getAsset (handleEmit '/' wGen wConfigDisabled wComp).compilation.assets
          (manifestPathOf '/' wConfigDisabled wComp) =
        some (manifestAssetOf wConfigDisabled wComp) ∧
      getAsset (handleEmit '/' wGen wConfigDisabled wComp).compilation.assets
          (swDestPathOf '/' wConfigDisabled wComp) =
        some (convertStringToAsset (wGen s).1) ∧
      (∀ k, k ≠ manifestPathOf '/' wConfigDisabled wComp →
        k ≠ swDestPathOf '/' wConfigDisabled wComp →
        getAsset (handleEmit '/' wGen wConfigDisabled wComp).compilation.assets k =
          getAsset wComp.assets k) ∧
      (∀ k, (getAsset wComp.assets k).isSome →
        (getAsset (handleEmit '/' wGen wConfigDisabled wComp).compilation.assets k).isSome) :=
  handleEmit_assets_frame '/' wGen wConfigDisabled wComp none rfl (by decide) (by decide)

/-- C10: when the build declares no public path, the manifest URL appended
to the importScripts list is exactly the forward-slash relative manifest
path, with no prefix rendered into it. -/
theorem handleEmit_absent_publicPath_empty (sep : Char)
    (gen : SanitizedConfig → String × List String) (cfg : Config)
    (comp : Compilation) (o : Option (List String))
    (hres : getWorkboxSWImports comp cfg = .ok o)
    (htok : hasManifestHashToken cfg.precacheManifestFilename = true)
    (hpp : comp.publicPath = none) :
    ∃ s, (handleEmit sep gen cfg comp).result = .ok s ∧
      s.importScripts.getLast? = some (toForwardSlashes sep (manifestPathOf sep cfg comp)) := by
  rw [handleEmit_eq_ok sep gen cfg comp o hres htok]
  refine ⟨_, rfl, ?_⟩
  simp only [sanitizedOf, manifestURLOf, hpp, Option.getD_none, string_empty_append]
  exact getLast?_append_singleton _ _ _

/-- Witness compilation state without a public path. -/
def wCompNoPP : Compilation := { wComp with publicPath := none }

theorem handleEmit_absent_publicPath_empty_witness :
    ∃ s, (handleEmit '/' wGen wConfigBase wCompNoPP).result = .ok s ∧
      s.importScripts.getLast? =
        some (toForwardSlashes '/' (manifestPathOf '/' wConfigBase wCompNoPP)) :=
  handleEmit_absent_publicPath_empty '/' wGen wConfigBase wCompNoPP
    (some [workboxCDNURL]) rfl (by decide) rfl

end WorkboxWebpackPlugin
